import Mathlib

/-!
Verification of the complaint queueing and assignment pipeline of the
SwarajDesk grievance-redressal platform: the Redis-backed FIFO queue
services and the complaint assignment worker
(`packages/admin-be/workers/complaintAssignmentWorker.ts`).

The queue store is modelled as a total map from list names to lists of
strings, with the Redis list primitives (`rPush`, `lPop`, `lIndex`,
`lPush`, `lLen`) as pure state-passing functions.  JSON payloads are kept
abstract: queue elements are raw strings, and JSON parsing is an arbitrary
function `String → Option α` supplied as a parameter (the services only
distinguish parse success from parse failure).  JavaScript truthiness of
optional string fields (`undefined` and `""` are falsy) is modelled
explicitly, since the worker's field-extraction fallback chains rely on it.
-/

/-- JavaScript truthiness of an optional string field: `undefined` (here
`none`) and the empty string are falsy, every other string is truthy. -/
def jsTruthy : Option String → Bool
  | none => false
  | some s => !(s == "")

/-- JavaScript `a || b` on optional string values: `a` when `a` is truthy,
otherwise `b` (even when `b` is itself falsy). -/
def jsOr (a b : Option String) : Option String :=
  if jsTruthy a then a else b

/-- The optional `location` sub-object of a complaint payload, with the two
optional fields the worker reads (`location?.city`, `location?.municipal`). -/
structure Location where
  city : Option String := none
  municipal : Option String := none
deriving DecidableEq

/-- A complaint payload as inspected by the assignment worker: every field
the worker's defensive extraction chains touch, each possibly absent. -/
structure Complaint where
  id : Option String := none
  complaintId : Option String := none
  _id : Option String := none
  location : Option Location := none
  municipality : Option String := none
  assignedDepartment : Option String := none
  department : Option String := none
deriving DecidableEq

/-- `complaint.location?.city || complaint.location?.municipal ||
complaint.municipality` (worker line 30, re-evaluated at line 78). -/
def extractMunicipality (c : Complaint) : Option String :=
  jsOr (jsOr (c.location.bind Location.city) (c.location.bind Location.municipal))
    c.municipality

/-- `complaint.id || complaint.complaintId || complaint._id` (worker line 27). -/
def extractId (c : Complaint) : Option String :=
  jsOr (jsOr c.id c.complaintId) c._id

/-- `ALLOWED_MUNICIPALITIES` of `ComplaintAssignmentWorker` (line 6). -/
def ALLOWED_MUNICIPALITIES : List String := ["Ranchi", "Dhanbad", "Jamshedpur"]

/-- Outcome of the outbound HTTP request as observed by the worker: a
response with a status code and body, a transport error, or the 5s timeout. -/
inductive HttpOutcome where
  | response (status : Nat) (body : String)
  | netError
  | timeout
deriving DecidableEq

/-- `res.statusCode >= 200 && res.statusCode < 300` (worker line 117). -/
def isSuccessStatus (s : Nat) : Bool :=
  decide (200 ≤ s) && decide (s < 300)

/-- The promise returned by `assignComplaint` resolves exactly when a
response arrived with a 2xx status; every other status, a transport error
and a timeout reject it (worker lines 112-134). -/
def httpSuccess : HttpOutcome → Bool
  | HttpOutcome.response s _ => isSuccessStatus s
  | HttpOutcome.netError => false
  | HttpOutcome.timeout => false

/-- The JSON body of the auto-assign request (worker lines 88-92).
`JSON.stringify` omits `undefined` fields, which the `Option` fields model. -/
structure PostBody where
  id : Option String
  municipality : String
  department : Option String
deriving DecidableEq

/-- The outbound HTTP request built by `assignComplaint` (worker lines 94-103). -/
structure HttpRequest where
  method : String
  hostname : String
  port : Nat
  path : String
  contentType : String
  body : PostBody
deriving DecidableEq

/-- The request `assignComplaint` sends for a complaint `c`: a POST to
`/api/agent/complaints/auto-assign` with JSON body
`{ id: complaint.id, municipality, department: assignedDepartment || department }`. -/
def assignReq (c : Complaint) : HttpRequest :=
  { method := "POST"
    hostname := "localhost"
    port := 3002
    path := "/api/agent/complaints/auto-assign"
    contentType := "application/json"
    body :=
      { id := c.id
        municipality := (extractMunicipality c).getD ""
        department := jsOr c.assignedDepartment c.department } }

/-- Result of one `assignComplaint` invocation: either the early rejection
`Municipality not found in complaint data` (worker lines 80-84, before any
request is sent), or a request was sent with the given success outcome. -/
inductive AssignResult where
  | municipalityNotFound
  | sent (req : HttpRequest) (success : Bool)
deriving DecidableEq

/-- `ComplaintAssignmentWorker.assignComplaint` (worker lines 73-139):
re-extracts the municipality from the complaint, rejects when it is falsy,
otherwise sends the auto-assign request and succeeds exactly on a 2xx
response. -/
def assignComplaint (c : Complaint) (http : HttpOutcome) : AssignResult :=
  if jsTruthy (extractMunicipality c) = false then
    AssignResult.municipalityNotFound
  else
    AssignResult.sent (assignReq c) (httpSuccess http)

/-- The queue store: a total map from Redis list names to lists of raw
string elements (head of the Lean list = head of the Redis list). -/
def Store : Type := String → List String

/-- Replace the list stored under one name. -/
def storeSet (st : Store) (k : String) (v : List String) : Store :=
  fun n => if n = k then v else st n

/-- Redis `LLEN`. -/
def lLen (st : Store) (k : String) : Nat := (st k).length

/-- Redis `LINDEX`. -/
def lIndex (st : Store) (k : String) (i : Nat) : Option String := (st k).get? i

/-- Redis `LPOP`: removes and returns the head element, `none` on an empty
list. -/
def lPop (st : Store) (k : String) : Option String × Store :=
  match st k with
  | [] => (none, st)
  | x :: xs => (some x, storeSet st k xs)

/-- Redis `LPUSH`: prepends an element. -/
def lPush (st : Store) (k : String) (v : String) : Store :=
  storeSet st k (v :: st k)

/-- Redis `RPUSH`: appends an element at the tail. -/
def rPush (st : Store) (k : String) (v : String) : Store :=
  storeSet st k (st k ++ [v])

/-- The registration queue polled by the assignment worker
(`complaint:registration:queue`). -/
def complaintQueueName : String := "complaint:registration:queue"

/-- The malformed/dead-letter list `pollAndPop` relocates unparseable
entries to (`complaint:assignment:malformed`, spec §6 and the unit test
`should handle malformed JSON and move to dead-letter queue`). -/
def complaintMalformedName : String := "complaint:assignment:malformed"

/-- The processed queue (`complaint:processed:queue`). -/
def processedQueueName : String := "complaint:processed:queue"

/-- Modelled from the spec: `complaintQueueService.pollAndPop` (§4.2), whose
implementation file `lib/redis/complaintQueueService.ts` is not in the
sources, only its unit tests.  Read the length; if zero return no item;
otherwise `LPOP` one element; if the pop returned nothing return no item;
JSON-parse it; on success return the parsed record; on parse failure
`LPUSH` the raw string onto the malformed list and return no item. -/
def pollAndPop {α : Type} (parse : String → Option α) (st : Store) :
    Option α × Store :=
  if lLen st complaintQueueName = 0 then (none, st)
  else
    match lPop st complaintQueueName with
    | (none, st1) => (none, st1)
    | (some raw, st1) =>
      match parse raw with
      | some v => (some v, st1)
      | none => (none, lPush st1 complaintMalformedName raw)

/-- Modelled from the spec: `complaintQueueService.peekComplaint` (§4.2),
implementation not in the sources.  Zero-length short-circuit, then a
non-destructive `LINDEX 0`; returns the parsed item or null without
removing anything. -/
def peekComplaint {α : Type} (parse : String → Option α) (st : Store) :
    Option α × Store :=
  if lLen st complaintQueueName = 0 then (none, st)
  else
    match lIndex st complaintQueueName 0 with
    | none => (none, st)
    | some raw => (parse raw, st)

/-- Modelled from the spec: `ProcessedComplaintQueueService.peekQueue`
(§4.3), implementation not in the sources.  Non-destructive `LINDEX 0`,
null on an empty queue; per the unit test `should return raw string for
non-JSON content`, an unparseable head is returned as the raw string
(`Sum.inr`), a parseable one as the parsed value (`Sum.inl`). -/
def peekQueue {α : Type} (parse : String → Option α) (st : Store) :
    Option (α ⊕ String) × Store :=
  match lIndex st processedQueueName 0 with
  | none => (none, st)
  | some raw =>
    match parse raw with
    | some v => (some (Sum.inl v), st)
    | none => (some (Sum.inr raw), st)

/-- Modelled from the spec: `assignQueue.peekProcessedQueue` (§4.3),
implementation not in the sources.  Non-destructive `LINDEX 0`; returns
null on an empty queue and null on a malformed head (unit test `should
return null for malformed JSON`). -/
def peekProcessedQueue {α : Type} (parse : String → Option α) (st : Store) :
    Option α × Store :=
  match lIndex st processedQueueName 0 with
  | none => (none, st)
  | some raw => (parse raw, st)

/-- Modelled from the spec: `complaintQueueService.removeFirstComplaint`
(the worker's pop primitive, §4.4 step 6; implementation not in the
sources): discard the head element of the worker's queue. -/
def removeFirstComplaint (st : Store) : Store :=
  (lPop st complaintQueueName).2

/-- Observable effects of one iteration of the worker loop (worker lines
19-70): the store afterwards, the auto-assign request dispatched this
iteration (if any), the recorded result of the `assignComplaint` call (if
it was invoked), whether the head element was removed, and the sleep the
iteration ends with (0 = `continue` immediately). -/
structure StepOutcome where
  store : Store
  dispatched : Option HttpRequest
  assignResult : Option AssignResult
  popped : Bool
  sleepMs : Nat

/-- One iteration of `ComplaintAssignmentWorker.start`'s loop (worker lines
19-70): peek; if nothing, sleep 10s; if the municipality is falsy, pop and
discard; if it is not in the allow-list, pop and discard; otherwise call
`assignComplaint` and pop only on success, else keep the head and sleep
30s. -/
def workerStep (parse : String → Option Complaint) (http : HttpOutcome)
    (st : Store) : StepOutcome :=
  match (peekComplaint parse st).1 with
  | none =>
    { store := st, dispatched := none, assignResult := none,
      popped := false, sleepMs := 10000 }
  | some complaint =>
    let municipality := extractMunicipality complaint
    if jsTruthy municipality = false then
      { store := removeFirstComplaint st, dispatched := none,
        assignResult := none, popped := true, sleepMs := 0 }
    else if municipality.getD "" ∉ ALLOWED_MUNICIPALITIES then
      { store := removeFirstComplaint st, dispatched := none,
        assignResult := none, popped := true, sleepMs := 0 }
    else
      match assignComplaint complaint http with
      | AssignResult.sent req true =>
        { store := removeFirstComplaint st, dispatched := some req,
          assignResult := some (AssignResult.sent req true),
          popped := true, sleepMs := 0 }
      | AssignResult.sent req false =>
        { store := st, dispatched := some req,
          assignResult := some (AssignResult.sent req false),
          popped := false, sleepMs := 30000 }
      | AssignResult.municipalityNotFound =>
        { store := st, dispatched := none,
          assignResult := some AssignResult.municipalityNotFound,
          popped := false, sleepMs := 30000 }

/-- Run `fuel` iterations of the worker loop with a fixed HTTP outcome,
collecting the dispatched requests in order. -/
def workerRun (parse : String → Option Complaint) (http : HttpOutcome) :
    Nat → Store → List HttpRequest × Store
  | 0, st => ([], st)
  | Nat.succ n, st =>
    let o := workerStep parse http st
    let r := workerRun parse http n o.store
    (o.dispatched.toList ++ r.1, r.2)

/-- The worker's running flag (`isRunning`, worker line 5). -/
structure WorkerFlag where
  isRunning : Bool
deriving DecidableEq

/-- `ComplaintAssignmentWorker.start`'s guard (worker lines 8-16): if the
worker is already running, return immediately (second component `false`: no
new polling loop); otherwise set the flag and start the loop (`true`). -/
def start (s : WorkerFlag) : WorkerFlag × Bool :=
  if s.isRunning then (s, false) else ({ isRunning := true }, true)

/-- Connection state of a singleton queue service: the `isConnected` flag
and a count of underlying store connections opened so far. -/
structure ConnState where
  isConnected : Bool
  connectCalls : Nat
deriving DecidableEq

/-- Modelled from the spec: `ProcessedComplaintQueueService.connect`
(§4.1/§4.2, implementation not in the sources): no-op when already
connected, otherwise open one underlying store connection and set the
flag. -/
def connect (s : ConnState) : ConnState :=
  if s.isConnected then s
  else { isConnected := true, connectCalls := s.connectCalls + 1 }

/-- A freshly constructed, unconnected service. -/
def initialConnState : ConnState :=
  { isConnected := false, connectCalls := 0 }

/-- A queue's entry in the health report: its status string and, when
reachable, its length. -/
structure QueueHealth where
  status : String
  length : Option Nat
deriving DecidableEq

/-- Whether a queue-length call succeeded. -/
def exceptOk {ε α : Type} : Except ε α → Bool
  | Except.ok _ => true
  | Except.error _ => false

/-- One queue's health entry: `ok` with the length on success, `error` when
the length call threw. -/
def queueHealth {ε : Type} : Except ε Nat → QueueHealth
  | Except.ok n => { status := "ok", length := some n }
  | Except.error _ => { status := "error", length := none }

/-- The redis part of the health endpoint's report. -/
structure HealthReport where
  redis : String
  complaint : QueueHealth
  processed : QueueHealth
  blockchain : QueueHealth
deriving DecidableEq

/-- Modelled from the spec: the `healthPoint` route's redis aggregation
(§6/§8, `routes/health.ts` not in the sources, pinned by
`unit.health.test.ts`): each of the three queue-length calls yields an
entry, and the overall redis status is `ok` exactly when all three
succeeded, `partial` otherwise. -/
def healthPoint {ε : Type} (c p b : Except ε Nat) : HealthReport :=
  { redis := if exceptOk c && exceptOk p && exceptOk b then "ok" else "partial"
    complaint := queueHealth c
    processed := queueHealth p
    blockchain := queueHealth b }

/-- A sample complaint with an allow-listed municipality. -/
def sampleComplaint : Complaint :=
  { id := some "cmp-1", municipality := some "Ranchi" }

/-- A parse function recognising the sample complaint's raw form. -/
def sampleParse : String → Option Complaint :=
  fun s => if s = "item-1" then some sampleComplaint else none

/-- A store whose worker queue holds exactly the sample complaint. -/
def sampleStore : Store :=
  fun n => if n = complaintQueueName then ["item-1"] else []

/-- Region-filtering scenario (spec §8): a complaint from Ranchi. -/
def ranchiComplaint : Complaint :=
  { id := some "cmp-ranchi", municipality := some "Ranchi" }

/-- Region-filtering scenario: a complaint from the out-of-scope region Mars. -/
def marsComplaint : Complaint :=
  { id := some "cmp-mars", municipality := some "Mars" }

/-- Region-filtering scenario: a complaint from Dhanbad. -/
def dhanbadComplaint : Complaint :=
  { id := some "cmp-dhanbad", municipality := some "Dhanbad" }

/-- Parse function for the region-filtering scenario. -/
def regionParse : String → Option Complaint :=
  fun s =>
    if s = "ranchi-item" then some ranchiComplaint
    else if s = "mars-item" then some marsComplaint
    else if s = "dhanbad-item" then some dhanbadComplaint
    else none

/-- Store for the region-filtering scenario: the three complaints enqueued in
order Ranchi, Mars, Dhanbad. -/
def regionStore : Store :=
  fun n =>
    if n = complaintQueueName then ["ranchi-item", "mars-item", "dhanbad-item"]
    else []

/-- A complaint carrying no municipality information at all. -/
def noRegionComplaint : Complaint := { id := some "cmp-2" }

/-- Parse function recognising the municipality-less complaint. -/
def noRegionParse : String → Option Complaint :=
  fun s => if s = "item-2" then some noRegionComplaint else none

/-- A store whose worker queue holds exactly the municipality-less complaint. -/
def noRegionStore : Store :=
  fun n => if n = complaintQueueName then ["item-2"] else []

/-- A complaint whose `id` field is absent but whose `complaintId` is set:
the worker's extracted identifier and `complaint.id` differ on it. -/
def fallbackIdComplaint : Complaint :=
  { complaintId := some "CMP-42", municipality := some "Ranchi" }

/-- Parse function recognising the fallback-identifier complaint. -/
def fallbackIdParse : String → Option Complaint :=
  fun s => if s = "item-42" then some fallbackIdComplaint else none

/-- A store whose worker queue holds exactly the fallback-identifier
complaint. -/
def fallbackIdStore : Store :=
  fun n => if n = complaintQueueName then ["item-42"] else []

/-- A parse function on which every string fails to parse. -/
def malformedParse : String → Option Complaint := fun _ => none

/-- A store whose registration queue holds one unparseable string. -/
def malformedRegStore : Store :=
  fun n => if n = complaintQueueName then ["invalid-json"] else []

/-- A store whose processed queue holds one unparseable string. -/
def malformedProcStore : Store :=
  fun n => if n = processedQueueName then ["invalid-json"] else []

/-!
Helper lemmas about the store primitives and the worker step.
-/

theorem jsTruthy_some {m : String} (h : m ≠ "") : jsTruthy (some m) = true := by
  simp [jsTruthy, h]

theorem removeFirstComplaint_head {st : Store} {raw : String} {rest : List String}
    (hq : st complaintQueueName = raw :: rest) :
    removeFirstComplaint st complaintQueueName = rest := by
  simp [removeFirstComplaint, lPop, hq, storeSet]

theorem removeFirstComplaint_other {st : Store} {k : String}
    (hk : k ≠ complaintQueueName) :
    removeFirstComplaint st k = st k := by
  unfold removeFirstComplaint lPop
  cases st complaintQueueName with
  | nil => rfl
  | cons x xs => simp [storeSet, hk]

theorem peekComplaint_head {α : Type} {parse : String → Option α} {st : Store}
    {raw : String} {rest : List String}
    (hq : st complaintQueueName = raw :: rest) :
    peekComplaint parse st = (parse raw, st) := by
  simp [peekComplaint, lLen, lIndex, hq, List.get?]

theorem workerStep_allowed_success
    {parse : String → Option Complaint} {http : HttpOutcome} {st : Store}
    {raw : String} {rest : List String} {c : Complaint} {m : String}
    (hq : st complaintQueueName = raw :: rest)
    (hp : parse raw = some c)
    (hm : extractMunicipality c = some m) (hm0 : m ≠ "")
    (hall : m ∈ ALLOWED_MUNICIPALITIES)
    (hs : httpSuccess http = true) :
    workerStep parse http st =
      { store := removeFirstComplaint st, dispatched := some (assignReq c),
        assignResult := some (AssignResult.sent (assignReq c) true),
        popped := true, sleepMs := 0 } := by
  simp [workerStep, peekComplaint_head hq, hp, hm, jsTruthy_some hm0, hall,
    assignComplaint, hs]

theorem workerStep_allowed_failure
    {parse : String → Option Complaint} {http : HttpOutcome} {st : Store}
    {raw : String} {rest : List String} {c : Complaint} {m : String}
    (hq : st complaintQueueName = raw :: rest)
    (hp : parse raw = some c)
    (hm : extractMunicipality c = some m) (hm0 : m ≠ "")
    (hall : m ∈ ALLOWED_MUNICIPALITIES)
    (hs : httpSuccess http = false) :
    workerStep parse http st =
      { store := st, dispatched := some (assignReq c),
        assignResult := some (AssignResult.sent (assignReq c) false),
        popped := false, sleepMs := 30000 } := by
  simp [workerStep, peekComplaint_head hq, hp, hm, jsTruthy_some hm0, hall,
    assignComplaint, hs]

/-!
Claim theorems.
-/

/-- C1: for an allow-listed head complaint, the worker removes the head
element if and only if the assignment HTTP call completed with a 2xx
status; on a non-2xx response, network error or timeout the head is kept,
the worker sleeps the 30-second backoff, and the same head item is still at
the front for the next iteration. -/
theorem c1_head_removed_iff_2xx
    (parse : String → Option Complaint) (http : HttpOutcome) (st : Store)
    (raw : String) (rest : List String) (c : Complaint) (m : String)
    (hq : st complaintQueueName = raw :: rest)
    (hp : parse raw = some c)
    (hm : extractMunicipality c = some m) (hm0 : m ≠ "")
    (hall : m ∈ ALLOWED_MUNICIPALITIES) :
    ((workerStep parse http st).popped = true ↔ httpSuccess http = true)
    ∧ (httpSuccess http = true →
        (workerStep parse http st).store complaintQueueName = rest)
    ∧ (httpSuccess http = false →
        (workerStep parse http st).store complaintQueueName = raw :: rest
        ∧ (workerStep parse http st).popped = false
        ∧ (workerStep parse http st).sleepMs = 30000) := by
  cases hh : httpSuccess http with
  | true =>
    rw [workerStep_allowed_success hq hp hm hm0 hall hh]
    simp [removeFirstComplaint_head hq]
  | false =>
    rw [workerStep_allowed_failure hq hp hm hm0 hall hh]
    simp [hq]

/-- Witness for C1 at a concrete allow-listed complaint and a 200 response. -/
theorem c1_witness :
    ((workerStep sampleParse (HttpOutcome.response 200 "ok") sampleStore).popped = true
      ↔ httpSuccess (HttpOutcome.response 200 "ok") = true)
    ∧ (httpSuccess (HttpOutcome.response 200 "ok") = true →
        (workerStep sampleParse (HttpOutcome.response 200 "ok") sampleStore).store
          complaintQueueName = [])
    ∧ (httpSuccess (HttpOutcome.response 200 "ok") = false →
        (workerStep sampleParse (HttpOutcome.response 200 "ok") sampleStore).store
          complaintQueueName = ["item-1"]
        ∧ (workerStep sampleParse (HttpOutcome.response 200 "ok") sampleStore).popped = false
        ∧ (workerStep sampleParse (HttpOutcome.response 200 "ok") sampleStore).sleepMs = 30000) :=
  c1_head_removed_iff_2xx sampleParse (HttpOutcome.response 200 "ok") sampleStore
    "item-1" [] sampleComplaint "Ranchi" (by decide) (by decide) (by decide)
    (by decide) (by decide)

/-- C3: with regions [Ranchi, Mars, Dhanbad] enqueued in that order and the
assignment call succeeding, one full pass of the worker loop dispatches the
Ranchi and Dhanbad complaints to the assignment call in original order,
never dispatches the Mars complaint, and leaves the queue empty. -/
theorem c3_region_filtering :
    (workerRun regionParse (HttpOutcome.response 200 "") 3 regionStore).1
      = [assignReq ranchiComplaint, assignReq dhanbadComplaint]
    ∧ assignReq marsComplaint
        ∉ (workerRun regionParse (HttpOutcome.response 200 "") 3 regionStore).1
    ∧ (workerRun regionParse (HttpOutcome.response 200 "") 3 regionStore).2
        complaintQueueName = [] := by
  refine ⟨by decide, by decide, by decide⟩

/-- C4: a head complaint whose municipality is falsy, or whose municipality
is not in the allow-list, is popped and discarded without invoking the
assignment call, without touching any other list, and without any backoff
sleep before the next iteration. -/
theorem c4_discard_without_dispatch
    (parse : String → Option Complaint) (http : HttpOutcome) (st : Store)
    (raw : String) (rest : List String) (c : Complaint)
    (hq : st complaintQueueName = raw :: rest)
    (hp : parse raw = some c)
    (hbad : jsTruthy (extractMunicipality c) = false
      ∨ ∃ m, extractMunicipality c = some m ∧ m ≠ ""
          ∧ m ∉ ALLOWED_MUNICIPALITIES) :
    (workerStep parse http st).store complaintQueueName = rest
    ∧ (∀ k, k ≠ complaintQueueName → (workerStep parse http st).store k = st k)
    ∧ (workerStep parse http st).dispatched = none
    ∧ (workerStep parse http st).assignResult = none
    ∧ (workerStep parse http st).popped = true
    ∧ (workerStep parse http st).sleepMs = 0 := by
  have hstep : workerStep parse http st =
      { store := removeFirstComplaint st, dispatched := none,
        assignResult := none, popped := true, sleepMs := 0 } := by
    rcases hbad with hfalsy | ⟨m, hm, hm0, hnall⟩
    · simp [workerStep, peekComplaint_head hq, hp, hfalsy]
    · simp [workerStep, peekComplaint_head hq, hp, hm, jsTruthy_some hm0, hnall]
  rw [hstep]
  exact ⟨removeFirstComplaint_head hq, fun k hk => removeFirstComplaint_other hk,
    rfl, rfl, rfl, rfl⟩

/-- Witness for C4 at a concrete complaint with no municipality field. -/
theorem c4_witness :
    (workerStep noRegionParse HttpOutcome.netError noRegionStore).store
      complaintQueueName = []
    ∧ (workerStep noRegionParse HttpOutcome.netError noRegionStore).assignResult
      = none
    ∧ (workerStep noRegionParse HttpOutcome.netError noRegionStore).popped
      = true := by
  have h := c4_discard_without_dispatch noRegionParse HttpOutcome.netError
    noRegionStore "item-2" [] noRegionComplaint (by decide) (by decide)
    (Or.inl (by decide))
  exact ⟨h.1, h.2.2.2.1, h.2.2.2.2.1⟩

/-- C9: the `Municipality not found in complaint data` rejection branch
inside `assignComplaint` is unreachable from the worker loop: whatever the
queue contents, parse function and HTTP outcome, no iteration ever records
that rejection, because the loop discards complaints with a falsy
municipality before calling `assignComplaint`, which re-evaluates the same
extraction expression. -/
theorem c9_rejection_branch_unreachable
    (parse : String → Option Complaint) (http : HttpOutcome) (st : Store) :
    (workerStep parse http st).assignResult
      ≠ some AssignResult.municipalityNotFound := by
  cases hpeek : (peekComplaint parse st).1 with
  | none => simp [workerStep, hpeek]
  | some c =>
    by_cases hfalsy : jsTruthy (extractMunicipality c) = false
    · simp [workerStep, hpeek, hfalsy]
    · by_cases hmem : (extractMunicipality c).getD "" ∈ ALLOWED_MUNICIPALITIES
      · have hac : assignComplaint c http
            = AssignResult.sent (assignReq c) (httpSuccess http) := by
          simp [assignComplaint, hfalsy]
        cases hs : httpSuccess http <;>
          simp [workerStep, hpeek, hfalsy, hmem, hac, hs]
      · simp [workerStep, hpeek, hfalsy, hmem]

/-- C5 counterexample: for a complaint whose `id` field is absent but whose
`complaintId` is "CMP-42", the dispatched request's JSON body omits the id
(`complaint.id` is `undefined`) even though the identifier the loop
extracted is "CMP-42" — the body does not contain the extracted identifier. -/
theorem c5_counterexample :
    (workerStep fallbackIdParse (HttpOutcome.response 200 "") fallbackIdStore).dispatched
      = some (assignReq fallbackIdComplaint)
    ∧ (assignReq fallbackIdComplaint).body.id = none
    ∧ extractId fallbackIdComplaint = some "CMP-42"
    ∧ (assignReq fallbackIdComplaint).body.id ≠ extractId fallbackIdComplaint := by
  refine ⟨by decide, by decide, by decide, by decide⟩

/-- C5 (amended): for every complaint passing the region check, the worker
dispatches an HTTP POST to /api/agent/complaints/auto-assign with
Content-Type application/json whose JSON body carries `complaint.id` (the
raw `id` field, not the fallback-extracted identifier), the municipality,
and `assignedDepartment || department`; any 2xx status counts as success
(the head is removed) and every other status or transport error as failure. -/
theorem c5_request_shape
    (parse : String → Option Complaint) (http : HttpOutcome) (st : Store)
    (raw : String) (rest : List String) (c : Complaint) (m : String)
    (hq : st complaintQueueName = raw :: rest)
    (hp : parse raw = some c)
    (hm : extractMunicipality c = some m) (hm0 : m ≠ "")
    (hall : m ∈ ALLOWED_MUNICIPALITIES) :
    (workerStep parse http st).dispatched = some (assignReq c)
    ∧ (assignReq c).method = "POST"
    ∧ (assignReq c).path = "/api/agent/complaints/auto-assign"
    ∧ (assignReq c).contentType = "application/json"
    ∧ (assignReq c).body.id = c.id
    ∧ (assignReq c).body.municipality = m
    ∧ (assignReq c).body.department = jsOr c.assignedDepartment c.department
    ∧ ((workerStep parse http st).popped = true ↔ httpSuccess http = true) := by
  cases hs : httpSuccess http with
  | true =>
    rw [workerStep_allowed_success hq hp hm hm0 hall hs]
    simp [assignReq, hm]
  | false =>
    rw [workerStep_allowed_failure hq hp hm hm0 hall hs]
    simp [assignReq, hm]

/-- Witness for the amended C5 at a concrete complaint and a 503 response. -/
theorem c5_witness :
    (workerStep sampleParse (HttpOutcome.response 503 "err") sampleStore).dispatched
      = some (assignReq sampleComplaint)
    ∧ (assignReq sampleComplaint).body.municipality = "Ranchi"
    ∧ ((workerStep sampleParse (HttpOutcome.response 503 "err") sampleStore).popped = true
        ↔ httpSuccess (HttpOutcome.response 503 "err") = true) := by
  have h := c5_request_shape sampleParse (HttpOutcome.response 503 "err")
    sampleStore "item-1" [] sampleComplaint "Ranchi" (by decide) (by decide)
    (by decide) (by decide) (by decide)
  exact ⟨h.1, h.2.2.2.2.2.1, h.2.2.2.2.2.2.2⟩

/-- C2 counterexample: the dead-letter list that receives a malformed entry
is `complaint:assignment:malformed`, not `<queueName>:malformed`: with the
queue named `complaint:registration:queue` holding one unparseable string,
`pollAndPop` leaves the list named `complaint:registration:queue:malformed`
empty and relocates the string to `complaint:assignment:malformed`. -/
theorem c2_counterexample :
    (pollAndPop malformedParse malformedRegStore).2
      (complaintQueueName ++ ":malformed") = []
    ∧ (pollAndPop malformedParse malformedRegStore).2 complaintMalformedName
      = ["invalid-json"]
    ∧ (pollAndPop malformedParse malformedRegStore).1 = none
    ∧ complaintMalformedName ≠ complaintQueueName ++ ":malformed" := by
  refine ⟨by decide, by decide, by decide, by decide⟩

/-- C2 (amended): when the head of the queue fails JSON parsing,
`pollAndPop` pushes the raw string verbatim onto the dead-letter list named
`complaint:assignment:malformed` (a fixed sibling name, not literally
`<queueName>:malformed`) and returns no item; the malformed string is never
returned to the caller and never discarded, and starting from an empty
dead-letter list, that list afterwards contains exactly that string. -/
theorem c2_malformed_relocated
    {α : Type} (parse : String → Option α) (st : Store)
    (raw : String) (rest : List String)
    (hq : st complaintQueueName = raw :: rest)
    (hp : parse raw = none)
    (hdlq : st complaintMalformedName = []) :
    (pollAndPop parse st).1 = none
    ∧ (pollAndPop parse st).2 complaintQueueName = rest
    ∧ (pollAndPop parse st).2 complaintMalformedName = [raw] := by
  have hne : complaintMalformedName ≠ complaintQueueName := by decide
  have hpoll : pollAndPop parse st =
      (none, lPush (storeSet st complaintQueueName rest)
        complaintMalformedName raw) := by
    simp [pollAndPop, lLen, lPop, hq, hp]
  rw [hpoll]
  refine ⟨rfl, ?_, ?_⟩
  · simp [lPush, storeSet, hne, hne.symm]
  · simp [lPush, storeSet, hne, hdlq]

/-- Witness for the amended C2 at a concrete one-element queue. -/
theorem c2_witness :
    (pollAndPop malformedParse malformedRegStore).1 = none
    ∧ (pollAndPop malformedParse malformedRegStore).2 complaintQueueName = []
    ∧ (pollAndPop malformedParse malformedRegStore).2 complaintMalformedName
      = ["invalid-json"] :=
  c2_malformed_relocated malformedParse malformedRegStore "invalid-json" []
    (by decide) (by decide) (by decide)

/-- C6 counterexample: `ProcessedComplaintQueueService.peekQueue` does not
return null on a head that fails to parse: it returns the raw string
(the repository's unit test `should return raw string for non-JSON
content`). -/
theorem c6_counterexample :
    (peekQueue malformedParse malformedProcStore).1
      = some (Sum.inr "invalid-json")
    ∧ (peekQueue malformedParse malformedProcStore).1 ≠ none := by
  refine ⟨by decide, by decide⟩

/-- C6 (amended): all three peek operations are non-destructive (the store
is returned unchanged, so nothing is removed and no malformed head moves to
the dead-letter list) and return null on an empty queue; on a head that
parses, each returns the parsed item; on a head that fails to parse,
`peekComplaint` and `peekProcessedQueue` return null while `peekQueue`
returns the raw string. -/
theorem c6_peek_semantics
    {α : Type} (parse : String → Option α) (st : Store) :
    ((peekComplaint parse st).2 = st ∧ (peekQueue parse st).2 = st
      ∧ (peekProcessedQueue parse st).2 = st)
    ∧ (st complaintQueueName = [] → (peekComplaint parse st).1 = none)
    ∧ (st processedQueueName = [] →
        (peekQueue parse st).1 = none ∧ (peekProcessedQueue parse st).1 = none)
    ∧ (∀ raw rest v, st complaintQueueName = raw :: rest → parse raw = some v →
        (peekComplaint parse st).1 = some v)
    ∧ (∀ raw rest, st complaintQueueName = raw :: rest → parse raw = none →
        (peekComplaint parse st).1 = none)
    ∧ (∀ raw rest v, st processedQueueName = raw :: rest → parse raw = some v →
        (peekQueue parse st).1 = some (Sum.inl v)
        ∧ (peekProcessedQueue parse st).1 = some v)
    ∧ (∀ raw rest, st processedQueueName = raw :: rest → parse raw = none →
        (peekQueue parse st).1 = some (Sum.inr raw)
        ∧ (peekProcessedQueue parse st).1 = none) := by
  refine ⟨⟨?_, ?_, ?_⟩, ?_, ?_, ?_, ?_, ?_, ?_⟩
  · cases hc : st complaintQueueName with
    | nil => simp [peekComplaint, lLen, hc]
    | cons a l => simp [peekComplaint, lLen, lIndex, hc, List.get?]
  · cases hc : st processedQueueName with
    | nil => simp [peekQueue, lIndex, hc, List.get?]
    | cons a l =>
      cases hp : parse a <;> simp [peekQueue, lIndex, hc, List.get?, hp]
  · cases hc : st processedQueueName with
    | nil => simp [peekProcessedQueue, lIndex, hc, List.get?]
    | cons a l => simp [peekProcessedQueue, lIndex, hc, List.get?]
  · intro hc; simp [peekComplaint, lLen, hc]
  · intro hc; simp [peekQueue, peekProcessedQueue, lIndex, hc, List.get?]
  · intro raw rest v hc hp; simp [peekComplaint_head hc, hp]
  · intro raw rest hc hp; simp [peekComplaint_head hc, hp]
  · intro raw rest v hc hp
    constructor <;> simp [peekQueue, peekProcessedQueue, lIndex, hc, List.get?, hp]
  · intro raw rest hc hp
    constructor <;> simp [peekQueue, peekProcessedQueue, lIndex, hc, List.get?, hp]

/-- Witness for the amended C6 at a concrete malformed head. -/
theorem c6_witness :
    (peekQueue malformedParse malformedProcStore).1
      = some (Sum.inr "invalid-json")
    ∧ (peekProcessedQueue malformedParse malformedProcStore).1 = none
    ∧ (peekQueue malformedParse malformedProcStore).2 = malformedProcStore := by
  have h := c6_peek_semantics malformedParse malformedProcStore
  have h7 := h.2.2.2.2.2.2 "invalid-json" [] (by decide) (by decide)
  exact ⟨h7.1, h7.2, h.1.2.1⟩

/-- C7: `connect` is idempotent — a no-op once the service is connected —
and however many times it is called on a fresh singleton service, exactly
one underlying store connection is opened. -/
theorem c7_connect_once :
    (∀ s : ConnState, s.isConnected = true → connect s = s)
    ∧ ∀ n : Nat, 1 ≤ n →
        (connect^[n] initialConnState).connectCalls = 1
        ∧ (connect^[n] initialConnState).isConnected = true := by
  have hconn : ∀ s : ConnState, s.isConnected = true → connect s = s := by
    intro s hs; simp [connect, hs]
  refine ⟨hconn, ?_⟩
  have hstable : ∀ k : Nat,
      connect^[k] { isConnected := true, connectCalls := 1 }
        = ({ isConnected := true, connectCalls := 1 } : ConnState) := by
    intro k
    induction k with
    | zero => rfl
    | succ k ih => rw [Function.iterate_succ_apply, hconn _ rfl, ih]
  intro n hn
  obtain ⟨k, rfl⟩ : ∃ k, n = k + 1 :=
    ⟨n - 1, (Nat.succ_pred_eq_of_pos hn).symm⟩
  have h1 : connect initialConnState
      = ({ isConnected := true, connectCalls := 1 } : ConnState) := by
    simp [connect, initialConnState]
  rw [Function.iterate_succ_apply, h1, hstable k]
  exact ⟨rfl, rfl⟩

/-- Witness for C7: a second connect is a no-op, and three connects on a
fresh service open exactly one store connection. -/
theorem c7_witness :
    connect { isConnected := true, connectCalls := 5 }
      = ({ isConnected := true, connectCalls := 5 } : ConnState)
    ∧ (connect^[3] initialConnState).connectCalls = 1 := by
  have h := c7_connect_once
  exact ⟨h.1 _ rfl, (h.2 3 (by decide)).1⟩

/-- C8: the health aggregation reports overall redis status "ok" exactly
when every queue-length call succeeds; each succeeding queue reports status
"ok" with its length, and as soon as at least one queue-length call throws
the overall status is "partial". -/
theorem c8_health_aggregation
    {ε : Type} (c p b : Except ε Nat) :
    ((healthPoint c p b).redis = "ok"
      ↔ (exceptOk c = true ∧ exceptOk p = true ∧ exceptOk b = true))
    ∧ (∀ n, c = Except.ok n →
        (healthPoint c p b).complaint = { status := "ok", length := some n })
    ∧ (∀ n, p = Except.ok n →
        (healthPoint c p b).processed = { status := "ok", length := some n })
    ∧ (∀ n, b = Except.ok n →
        (healthPoint c p b).blockchain = { status := "ok", length := some n })
    ∧ ((exceptOk c = false ∨ exceptOk p = false ∨ exceptOk b = false) →
        (healthPoint c p b).redis = "partial") := by
  have hok : ("partial" : String) ≠ "ok" := by decide
  cases c <;> cases p <;> cases b <;>
    simp [healthPoint, exceptOk, queueHealth, hok]

/-- Witness for C8: complaint queue down, processed length 3, blockchain
length 2 gives overall "partial" while the processed queue reports ok/3. -/
theorem c8_witness :
    (healthPoint (Except.error "down") (Except.ok 3) (Except.ok 2)).redis
      = "partial"
    ∧ (healthPoint (Except.error "down") (Except.ok 3) (Except.ok 2)).processed
      = { status := "ok", length := some 3 } := by
  have h := c8_health_aggregation (Except.error "down") (Except.ok 3)
    (Except.ok 2)
  exact ⟨h.2.2.2.2 (Or.inl rfl), h.2.2.1 3 rfl⟩

/-- C10: calling `start` while the worker is already running returns
immediately without starting a second polling loop and without changing the
flag; for every state, a second `start` after one `start` leaves the state
as after the first and starts no loop. -/
theorem c10_start_idempotent (s : WorkerFlag) :
    (s.isRunning = true → start s = (s, false))
    ∧ start (start s).1 = ((start s).1, false)
    ∧ (start s).1.isRunning = true := by
  cases s with
  | mk r => cases r <;> simp [start]

/-- Witness for C10 at an already-running worker. -/
theorem c10_witness :
    start { isRunning := true } = (({ isRunning := true } : WorkerFlag), false)
    ∧ start (start { isRunning := true }).1
      = ((start { isRunning := true }).1, false) := by
  have h := c10_start_idempotent { isRunning := true }
  exact ⟨h.1 rfl, h.2.1⟩
